import Mathlib

/-!
Shallow embedding of the storagenode-docker supervisor (Go) and proofs about
its documented behaviour.

Source files embedded:
* supervisor/process.go   — `Process` (the WorkerHandle): start, wait, exit,
  kill, pid, lastRestarted bookkeeping, version parsing.
* supervisor/supervisor.go — `Manager`: the update cycle, the safe-reap
  protocol, the jittered pre-check sleep.
* main.go — `execSupervisor`: the startup bootstrap (backup restore /
  forced first update).

External effects (the OS launching a process, a child exiting, signals
failing, the random source, the version server) are passed in as explicit
parameters, so every definition is an executable function of its inputs.
Time stamps are modelled as integers (nanoseconds since epoch, UTC.)
-/

deriving instance DecidableEq for Except

namespace StorjSupervisor

/-- Semantic version: ordered triple plus optional pre-release qualifier.
The zero value (0,0,0, no pre-release) is the distinguished
"unknown/no version observed yet" value (storj `version.SemVer`). -/
structure SemVer where
  major : Nat
  minor : Nat
  patch : Nat
  prerelease : Option String
deriving DecidableEq, Repr

/-- The zero `SemVer` value. -/
def SemVer.zero : SemVer := ⟨0, 0, 0, none⟩

/-- `IsZero` of storj `version.SemVer`: the whole value equals the zero value. -/
def SemVer.isZero (v : SemVer) : Bool := v = SemVer.zero

/-- Semantic-version strict order: numeric fields compared numerically,
lexicographically; at an equal numeric triple a pre-release ranks lower
than its absence. -/
def SemVer.lt (a b : SemVer) : Bool :=
  if a.major ≠ b.major then a.major < b.major
  else if a.minor ≠ b.minor then a.minor < b.minor
  else if a.patch ≠ b.patch then a.patch < b.patch
  else match a.prerelease, b.prerelease with
    | some _, none => true
    | some x, some y => x < y
    | _, _ => false

/-- The `*exec.Cmd` attached to a `Process`. `process` is `cmd.Process`:
`none` until the OS has actually launched the child (and permanently
`none` when the launch failed), `some pid` afterwards. -/
structure Cmd where
  process : Option Nat
deriving DecidableEq, Repr

/-- `supervisor.Process` (the WorkerHandle): executable path, store
directory, argument list, node id, attached command handle and
last-restarted timestamp.  `cmd = none` means no process handle is
attached. -/
structure Process where
  nodeID : String
  binPath : String
  storeDir : String
  args : List String
  cmd : Option Cmd
  lastRestarted : Int
deriving DecidableEq, Repr

/-- `supervisor.NewProcess`: a fresh handle, no attached command, zero
timestamp. -/
def NewProcess (nodeID binPath storeDir : String) (args : List String) : Process :=
  ⟨nodeID, binPath, storeDir, args, none, 0⟩

/-- `Process.pid`: 0 when `p.cmd == nil` or `p.cmd.Process == nil`,
otherwise the OS pid. -/
def Process.pid (p : Process) : Nat :=
  match p.cmd with
  | none => 0
  | some c =>
    match c.process with
    | none => 0
    | some n => n

/-- `Process.lastRestartedTime` (the stored value; the mutex only matters
for the concurrency analysis further down). -/
def Process.lastRestartedTime (p : Process) : Int :=
  p.lastRestarted

/-- `errs.Class.Wrap` of the `process` error class: wraps a non-nil error,
passes nil through. -/
def errProcessWrap (e : String) : String := "process: " ++ e

/-- `errs.Class.Wrap` of the `supervisor` error class. -/
def errSupervisorWrap (e : String) : String := "supervisor: " ++ e

/-- Outcome of `Process.start`. `panicked` is the Go runtime panic raised
by the unguarded `p.args[0]` index on an empty argument list. -/
inductive StartResult
  | panicked
  | alreadyStarted
  | processErr (e : String)
  | ok
deriving DecidableEq, Repr

/-- `Process.start`.  `osStart` is the OS's answer to `cmd.Start()`
(`some pid` on success, `none` with an error message via `osErr` on
failure) and `now` is `time.Now()`.  Faithful ordering from the source:
the already-started check comes first, `p.args[0]` is indexed next (panic
on empty args), `p.cmd` is assigned before `Start` is attempted — so a
failed launch leaves a command handle attached with no OS process — and
the timestamp is recorded only after a successful `Start`. -/
def Process.start (p : Process) (osStart : Option Nat) (osErr : String) (now : Int) :
    StartResult × Process :=
  if p.cmd.isSome then (.alreadyStarted, p)
  else if p.args.isEmpty then (.panicked, p)
  else
    match osStart with
    | none => (.processErr (errProcessWrap osErr), { p with cmd := some ⟨none⟩ })
    | some pid =>
      (.ok, { p with cmd := some ⟨some pid⟩, lastRestarted := now })

/-- `Process.wait`.  `exitErr` is the error `cmd.Wait()` reports (`none`
for a clean exit).  A nil command handle is an immediate nil return; the
deferred assignment clears the handle on the other path. -/
def Process.wait (p : Process) (exitErr : Option String) : Option String × Process :=
  match p.cmd with
  | none => (none, p)
  | some _ => (exitErr.map errProcessWrap, { p with cmd := none })

/-- What a signalling call (`exit` / `kill`) did: whether it hit the Go
nil-pointer panic (`p.cmd.Process` nil but `p.cmd` attached), which signal
was sent, and the wrapped error of `Process.Signal`. -/
structure SignalResult where
  panicked : Bool
  sentInterrupt : Bool
  sentKill : Bool
  err : Option String
deriving DecidableEq, Repr

/-- `Process.exit`: interrupt signal, nil-handle no-op.  `sigErr` is the
error `Signal` reports. -/
def Process.exit (p : Process) (sigErr : Option String) : SignalResult × Process :=
  match p.cmd with
  | none => (⟨false, false, false, none⟩, p)
  | some c =>
    match c.process with
    | none => (⟨true, false, false, none⟩, p)
    | some _ => (⟨false, true, false, sigErr.map errProcessWrap⟩, p)

/-- `Process.kill`: kill signal, nil-handle no-op. -/
def Process.kill (p : Process) (sigErr : Option String) : SignalResult × Process :=
  match p.cmd with
  | none => (⟨false, false, false, none⟩, p)
  | some c =>
    match c.process with
    | none => (⟨true, false, false, none⟩, p)
    | some _ => (⟨false, false, true, sigErr.map errProcessWrap⟩, p)

/-- `supervisor.Config` (supervisor.go): tuning parameters read from the
environment.  Durations are integers (nanoseconds). -/
structure Config where
  checkInterval : Int
  processExitTimeout : Int
  checkMaxSleep : Int
  disableProcessRestartOnExit : Bool
  disableAutoupdate : Bool
deriving DecidableEq, Repr

/-- Go `rand.Int63n(n)`: panics when `n ≤ 0` (modelled as `none`);
otherwise the accepted 63-bit draw of its rejection-sampling loop,
reduced modulo `n` (for a power of two the masking `r.Int63() & (n-1)`
is the same reduction). `draw` stands for that accepted draw. -/
def int63n (n : Int) (draw : Nat) : Option Int :=
  if n ≤ 0 then none else some ((draw : Int) % n)

/-- The jitter drawn at the top of each update cycle (supervisor.go line
381): `time.Duration(rand.Int63n(int64(s.config.CheckMaxSleep)))`. -/
def sampleJitter (cfg : Config) (draw : Nat) : Option Int :=
  int63n cfg.checkMaxSleep draw

/-- What `Manager.reapProcess` returned. -/
inductive ReapRet
  | exitPanic
  | exitErr (e : String)
  | ctxErr
  | ok
  | killPanic
  | killRet (e : Option String)
deriving DecidableEq, Repr

/-- `Manager.reapProcess`.  `p0` is the process state at snapshot time,
`exitSigErr` the error (if any) of the interrupt signal, `sleepCompleted`
whether `sync2.Sleep(ctx, ProcessExitTimeout)` ran to completion (false =
lifetime cancelled), `p1` the process state observed after the sleep
(it may differ from `p0` because the supervision task runs concurrently),
and `killSigErr` the error of the kill signal.  Returns the function's
result together with whether a kill signal was actually sent. -/
def reapProcess (p0 : Process) (exitSigErr : Option String) (sleepCompleted : Bool)
    (p1 : Process) (killSigErr : Option String) : ReapRet × Bool :=
  let lastRestarted := p0.lastRestartedTime
  let oldPID := p0.pid
  let exitRes := (p0.exit exitSigErr).1
  if exitRes.panicked then (.exitPanic, false)
  else
    match exitRes.err with
    | some e => (.exitErr (errSupervisorWrap e), false)
    | none =>
      if ¬sleepCompleted then (.ctxErr, false)
      else if p1.pid = 0 ∨ p1.pid ≠ oldPID then (.ok, false)
      else if ¬(p1.lastRestartedTime = lastRestarted) then (.ok, false)
      else
        let killRes := (p1.kill killSigErr).1
        if killRes.panicked then (.killPanic, killRes.sentKill)
        else (.killRet killRes.err, killRes.sentKill)

/-- The check-and-apply step and the reap step of one update cycle
(supervisor.go lines 394-406): on an update error, log and return nil;
when an update was applied, remember the new version and return the
(supervisor-wrapped) reap result; otherwise nil.  Returns the cycle
function's error result and the `curVersion` kept for the next cycle. -/
def updateStep (cur : SemVer) (updateRes : SemVer → Except String (SemVer × Bool))
    (reapRes : Option String) : Option String × SemVer :=
  match updateRes cur with
  | .error _ => (none, cur)
  | .ok (newVersion, updated) =>
    if updated then (reapRes.map errSupervisorWrap, newVersion)
    else (none, cur)

/-- One execution of the update-task cycle closure (supervisor.go lines
379-407).  `sleepOk` is whether the jittered sleep completed, `versionRes`
the result of `s.process.Version(ctx)` (consulted only when `curVersion`
is still zero; on failure Go's multi-assignment leaves the zero value in
`curVersion` and the cycle returns nil), `updateRes` the result of
`s.updater.Update` as a function of the version passed to it, `reapRes`
the error result of `s.reapProcess`.  Returns the error handed back to
the scheduling loop (`none` = success) and the retained `curVersion`. -/
def updateCycle (curVersion : SemVer) (sleepOk : Bool)
    (versionRes : Except String SemVer)
    (updateRes : SemVer → Except String (SemVer × Bool))
    (reapRes : Option String) : Option String × SemVer :=
  if ¬sleepOk then (some (errSupervisorWrap "context canceled"), curVersion)
  else if curVersion.isZero then
    match versionRes with
    | .error _ => (none, SemVer.zero)
    | .ok v => updateStep v updateRes reapRes
  else updateStep curVersion updateRes reapRes

/-- Which side effects a `checkAndApply` run performed. -/
structure UpdateActions where
  fetched : Bool
  backedUp : Bool
  installed : Bool
deriving DecidableEq, Repr

/-- Modelled from the spec: `Updater.Update` / `checkAndApply` — the
updater source file is not under src/.  Per spec §4.3: query the version
source for the target; if the current version is unknown (zero) or
strictly below the target, fetch the payload, verify it by invoking it
with the `version` argument and comparing against the target, back up the
installed binary and atomically install; return the new version and
`updated = true`.  Equal-or-greater current version: return the current
version unchanged with `updated = false` and perform no fetch.
`queryRes` is the version server's answer, `fetchRes` the download
result, `verifiedVersion` what the downloaded binary reports. -/
def checkAndApply (currentVersion : SemVer)
    (queryRes : Except String SemVer)
    (fetchRes : Except String Unit)
    (verifiedVersion : Except String SemVer) :
    Except String (SemVer × Bool) × UpdateActions :=
  match queryRes with
  | .error e => (.error e, ⟨false, false, false⟩)
  | .ok target =>
    if currentVersion.isZero ∨ SemVer.lt currentVersion target then
      match fetchRes with
      | .error e => (.error e, ⟨true, false, false⟩)
      | .ok _ =>
        match verifiedVersion with
        | .error e => (.error e, ⟨true, false, false⟩)
        | .ok v =>
          if v = target then (.ok (target, true), ⟨true, true, true⟩)
          else (.error "version mismatch", ⟨true, false, false⟩)
    else (.ok (currentVersion, false), ⟨false, false, false⟩)

/-- `bufio.ScanLines` token split: break at every newline; a token before
a final newline is the last token (no empty trailing token); drop one
trailing carriage return per token.  `splitNl` is the raw newline split. -/
def splitNl : List Char → List Char → List (List Char)
  | [], acc => [acc.reverse]
  | c :: rest, acc =>
    if c = '\n' then acc.reverse :: splitNl rest []
    else splitNl rest (c :: acc)

/-- Drop one trailing carriage return, as `bufio.ScanLines` does. -/
def dropCR (cs : List Char) : List Char :=
  match cs.reverse with
  | '\r' :: rest => rest.reverse
  | _ => cs

/-- The lines `bufio.Scanner` yields on the combined output. -/
def scanLines (s : String) : List String :=
  let parts := splitNl s.data []
  let parts := if parts.getLast? = some [] then parts.dropLast else parts
  parts.map (fun cs => String.mk (dropCR cs))

/-- `strings.HasPrefix` on character lists. -/
def startsWithChars : List Char → List Char → Bool
  | [], _ => true
  | _, [] => false
  | p :: ps, c :: cs => p = c && startsWithChars ps cs

/-- The literal `"Version: "` looked for in each output line. -/
def versionMarker : List Char := ['V', 'e', 'r', 's', 'i', 'o', 'n', ':', ' ']

/-- Split at the first occurrence of a separator character, when any. -/
def splitFirst (sep : Char) : List Char → Option (List Char × List Char)
  | [] => none
  | c :: cs =>
    if c = sep then some ([], cs)
    else (splitFirst sep cs).map (fun q => (c :: q.1, q.2))

/-- Split at every occurrence of a separator character. -/
def splitAll (sep : Char) : List Char → List Char → List (List Char)
  | [], acc => [acc.reverse]
  | c :: rest, acc =>
    if c = sep then acc.reverse :: splitAll sep rest []
    else splitAll sep rest (c :: acc)

/-- Decimal reading of a nonempty digit string. -/
def readNatAux : List Char → Nat → Option Nat
  | [], acc => some acc
  | c :: cs, acc =>
    if c.isDigit then readNatAux cs (acc * 10 + (c.toNat - 48)) else none

/-- Decimal reading; the empty string is not a number. -/
def readNat (cs : List Char) : Option Nat :=
  if cs.isEmpty then none else readNatAux cs 0

/-- Modelled from the spec: `version.NewSemVer` of the external
storj common library (not part of this repository) — parse
`major.minor.patch` with an optional `-prerelease` tail, each numeric
field decimal, per the spec's SemanticVersion data model. -/
def NewSemVer (s : String) : Except String SemVer :=
  let (core, rel) :=
    match splitFirst '-' s.data with
    | none => (s.data, (none : Option String))
    | some q => (q.1, some (String.mk q.2))
  match splitAll '.' core [] with
  | [ma, mi, pa] =>
    match readNat ma, readNat mi, readNat pa with
    | some a, some b, some c => .ok ⟨a, b, c, rel⟩
    | _, _, _ => .error "invalid semantic version"
  | _ => .error "invalid semantic version"

/-- The scan loop of `parseVersion`: first line carrying the
`"Version: "` marker wins and its remainder (the line minus the 9-byte
marker) is parsed; no such line is the
"unable to determine binary version" error. -/
def parseVersionLines : List String → Except String SemVer
  | [] => .error "unable to determine binary version"
  | line :: rest =>
    if startsWithChars versionMarker line.data then
      NewSemVer (String.mk (line.data.drop 9))
    else parseVersionLines rest

/-- `supervisor.parseVersion` (process.go lines 125-136). -/
def parseVersion (out : String) : Except String SemVer :=
  parseVersionLines (scanLines out)

/-- Observable outcome of the startup bootstrap in `execSupervisor`
(main.go lines 92-122). -/
structure BootstrapOutcome where
  copiedBackup : Bool
  curVersion : SemVer
  updateRan : Bool
  updateActions : UpdateActions
  err : Option String
deriving DecidableEq, Repr

/-- The update-before-first-run step (main.go lines 115-122): skipped
when the (possibly rewritten) disable flag is set, otherwise one
`updater.Update` call with the adopted current version. -/
def firstRunUpdate (copied : Bool) (curVersion : SemVer) (disableFlag : Bool)
    (queryRes : Except String SemVer) (fetchRes : Except String Unit)
    (verifiedVersion : Except String SemVer) : BootstrapOutcome :=
  if disableFlag then ⟨copied, curVersion, false, ⟨false, false, false⟩, none⟩
  else
    let r := checkAndApply curVersion queryRes fetchRes verifiedVersion
    match r.1 with
    | .error e => ⟨copied, curVersion, true, r.2, some e⟩
    | .ok _ => ⟨copied, curVersion, true, r.2, none⟩

/-- The startup bootstrap of `execSupervisor` (main.go lines 92-122):
`curVersion` starts at the zero value; a missing installed binary with a
present backup is restored by copying and the restored binary's reported
version is adopted; a missing installed binary with no backup forces
`DisableUpdateBeforeFirstRun` off; then the update-before-first-run step
runs unless disabled.  `installedExists` / `backupExists` are the
`os.Stat` outcomes, `copyRes` the `copyBinary` error, `reportedVersion`
the restored binary's `process.Version` answer. -/
def execSupervisorBootstrap (installedExists backupExists disableUpdateBeforeFirstRun : Bool)
    (copyRes : Option String) (reportedVersion : Except String SemVer)
    (queryRes : Except String SemVer) (fetchRes : Except String Unit)
    (verifiedVersion : Except String SemVer) : BootstrapOutcome :=
  if installedExists then
    firstRunUpdate false SemVer.zero disableUpdateBeforeFirstRun queryRes fetchRes verifiedVersion
  else if backupExists then
    match copyRes with
    | some e => ⟨true, SemVer.zero, false, ⟨false, false, false⟩, some e⟩
    | none =>
      match reportedVersion with
      | .error e => ⟨true, SemVer.zero, false, ⟨false, false, false⟩, some e⟩
      | .ok v =>
        firstRunUpdate true v disableUpdateBeforeFirstRun queryRes fetchRes verifiedVersion
  else
    firstRunUpdate false SemVer.zero false queryRes fetchRes verifiedVersion

/-- One syntactic access of a `Process` method to the mutex or to a
mutable field (`cmd`, the pid-bearing handle, or `lastRestarted`, the
timestamp). -/
inductive Access
  | lockAcquire
  | lockRelease
  | readCmd
  | writeCmd
  | readTs
  | writeTs
deriving DecidableEq, Repr

/-- The successive mutable-field and mutex accesses of `Process.pid`
(process.go lines 50-55): `p.cmd` is read at line 51 (twice, for the
nil checks) and at line 54; no lock operation appears. -/
def pidTrace : List Access := [.readCmd, .readCmd, .readCmd]

/-- Accesses of `Process.start` (lines 59-75): read `p.cmd` (line 60),
write `p.cmd` (line 64), read it for `Start` (line 68), then
`setLastRestarted` locks around the timestamp write (lines 79-81). -/
def startTrace : List Access :=
  [.readCmd, .writeCmd, .readCmd, .lockAcquire, .writeTs, .lockRelease]

/-- Accesses of `Process.setLastRestarted` (lines 78-82). -/
def setLastRestartedTrace : List Access := [.lockAcquire, .writeTs, .lockRelease]

/-- Accesses of `Process.lastRestartedTime` (lines 85-89). -/
def lastRestartedTimeTrace : List Access := [.lockAcquire, .readTs, .lockRelease]

/-- Accesses of `Process.wait` (lines 92-102): read `p.cmd` (line 93),
read it for `Wait` (line 101), deferred write clearing it (line 98). -/
def waitTrace : List Access := [.readCmd, .readCmd, .writeCmd]

/-- Accesses of `Process.exit` (lines 105-110). -/
def exitTrace : List Access := [.readCmd, .readCmd]

/-- Accesses of `Process.kill` (lines 113-118). -/
def killTrace : List Access := [.readCmd, .readCmd]

/-- Every access to a mutable field happens while the mutex is held. -/
def mutexGuarded : Bool → List Access → Bool
  | _, [] => true
  | _, .lockAcquire :: r => mutexGuarded true r
  | _, .lockRelease :: r => mutexGuarded false r
  | held, _ :: r => held && mutexGuarded held r

/-- Every access to the timestamp field (only) happens under the mutex. -/
def tsGuarded : Bool → List Access → Bool
  | _, [] => true
  | _, .lockAcquire :: r => tsGuarded true r
  | _, .lockRelease :: r => tsGuarded false r
  | held, .readTs :: r => held && tsGuarded held r
  | held, .writeTs :: r => held && tsGuarded held r
  | held, _ :: r => tsGuarded held r

/-! Theorems. -/

/-- Claim C10: `start` indexes the first element of the argument list
without a guard, so on every WorkerHandle constructed with an empty
argument list, `start` hits the out-of-bounds panic (after the
already-started check, which a fresh handle passes) rather than
returning a "process" error or the "already started" error, and leaves
the state unchanged. -/
theorem start_empty_args_panics (nid b sd : String) (osStart : Option Nat)
    (osErr : String) (now : Int) :
    (NewProcess nid b sd []).start osStart osErr now = (.panicked, NewProcess nid b sd []) := by
  simp [NewProcess, Process.start]

/-- Claim C5: on a WorkerHandle with no attached process, `exit`
(graceful interrupt) and `kill` (force) both return a nil error, send no
signal, do not panic, and leave the state — attachment, pid and
last-start timestamp — unchanged. -/
theorem idempotent_termination (p : Process) (e1 e2 : Option String)
    (h : p.cmd = none) :
    p.exit e1 = (⟨false, false, false, none⟩, p) ∧
    p.kill e2 = (⟨false, false, false, none⟩, p) := by
  constructor <;> simp [Process.exit, Process.kill, h]

/-- Witness for C5 at a freshly constructed handle. -/
theorem idempotent_termination_witness :
    (NewProcess "nodeid" "/app/bin/storagenode" "/app/config/bin" ["storagenode", "run"]).exit none =
      (⟨false, false, false, none⟩,
        NewProcess "nodeid" "/app/bin/storagenode" "/app/config/bin" ["storagenode", "run"]) :=
  (idempotent_termination
    (NewProcess "nodeid" "/app/bin/storagenode" "/app/config/bin" ["storagenode", "run"])
    none none rfl).1

/-- A `start` on an unattached handle never reports "already started". -/
lemma start_not_alreadyStarted (p : Process) (osStart : Option Nat) (osErr : String)
    (now : Int) (h : p.cmd = none) :
    (p.start osStart osErr now).1 ≠ .alreadyStarted := by
  rw [Process.start.eq_def, h]
  simp only [Option.isSome_none, Bool.false_eq_true, if_false]
  split
  · simp
  · split <;> simp

/-- A `start` either leaves the timestamp untouched (and did not succeed)
or sets it to the current time (and succeeded). -/
lemma start_lastRestarted_cases (p : Process) (osStart : Option Nat) (osErr : String)
    (now : Int) :
    ((p.start osStart osErr now).2.lastRestarted = p.lastRestarted ∧
      (p.start osStart osErr now).1 ≠ .ok) ∨
    ((p.start osStart osErr now).2.lastRestarted = now ∧
      (p.start osStart osErr now).1 = .ok) := by
  rw [Process.start.eq_def]
  split
  · left; simp
  · split
    · left; simp
    · split
      · left; simp
      · right; simp

/-- Claim C2: WorkerHandle exclusivity — `start` returns the
"already started" error with the state unchanged whenever a command
handle is attached; `wait` always clears the attachment, making a
subsequent `start` legal (it can no longer report "already started");
`wait` on an unattached handle is a nil-error no-op; `wait` never moves
the last-start timestamp; a `start` that does not succeed leaves the
timestamp unchanged; and under a monotonic clock a `start` never moves
the timestamp backwards. -/
theorem worker_handle_exclusivity (p : Process) (osStart : Option Nat) (osErr : String)
    (now : Int) (exitErr : Option String) :
    (p.cmd.isSome = true → p.start osStart osErr now = (.alreadyStarted, p)) ∧
    ((p.wait exitErr).2.cmd = none) ∧
    (((p.wait exitErr).2.start osStart osErr now).1 ≠ .alreadyStarted) ∧
    (p.cmd = none → p.wait exitErr = (none, p)) ∧
    ((p.wait exitErr).2.lastRestarted = p.lastRestarted) ∧
    (∀ r p', p.start osStart osErr now = (r, p') → r ≠ .ok →
      p'.lastRestarted = p.lastRestarted) ∧
    (p.lastRestarted ≤ now → p.lastRestarted ≤ ((p.start osStart osErr now).2).lastRestarted) := by
  have hwait : (p.wait exitErr).2.cmd = none := by
    cases hc : p.cmd <;> simp [Process.wait, hc]
  refine ⟨?_, hwait, ?_, ?_, ?_, ?_, ?_⟩
  · intro h
    simp [Process.start, h]
  · exact start_not_alreadyStarted _ osStart osErr now hwait
  · intro hc
    simp [Process.wait, hc]
  · cases hc : p.cmd <;> simp [Process.wait, hc]
  · intro r p' hstart hr
    rcases start_lastRestarted_cases p osStart osErr now with ⟨h1, _⟩ | ⟨_, h2⟩
    · rw [hstart] at h1
      exact h1
    · rw [hstart] at h2
      exact absurd h2 hr
  · intro hle
    rcases start_lastRestarted_cases p osStart osErr now with ⟨h1, _⟩ | ⟨h1, _⟩ <;> rw [h1]
    exact hle

/-- Witness for C2: a handle with an attached process is refused a second
start, unchanged. -/
theorem worker_handle_exclusivity_witness :
    Process.start ⟨"n", "/bin/sn", "/store", ["storagenode"], some ⟨some 5⟩, 3⟩ (some 7) "" 9 =
      (.alreadyStarted, ⟨"n", "/bin/sn", "/store", ["storagenode"], some ⟨some 5⟩, 3⟩) :=
  (worker_handle_exclusivity ⟨"n", "/bin/sn", "/store", ["storagenode"], some ⟨some 5⟩, 3⟩
    (some 7) "" 9 none).1 rfl

/-- A kill on a process whose pid reads nonzero really sends the kill
signal (a nonzero pid forces an attached handle with a launched child). -/
lemma kill_sends_of_pid_ne (p : Process) (k : Option String) (h : p.pid ≠ 0) :
    (p.kill k).1.sentKill = true ∧ (p.kill k).1.panicked = false := by
  cases hc : p.cmd with
  | none => simp [Process.pid, hc] at h
  | some c =>
    cases hcp : c.process with
    | none => simp [Process.pid, hc, hcp] at h
    | some n => simp [Process.kill, hc, hcp]

/-- Claim C1: safe-reap decision.  For a reap run whose graceful-exit
signal neither panicked nor errored and whose timeout sleep completed,
a kill signal is sent if and only if the post-sleep re-read pid is
nonzero and equal to the snapshot pid and the post-sleep last-start
timestamp equals the snapshot timestamp; in every other case (pid now 0,
pid differing from the snapshot, or a changed timestamp) the reap
returns success without issuing a force-kill. -/
theorem reap_force_kill_iff (p0 p1 : Process) (e k : Option String)
    (hp : (p0.exit e).1.panicked = false)
    (he : (p0.exit e).1.err = none) :
    ((reapProcess p0 e true p1 k).2 = true ↔
      (p1.pid ≠ 0 ∧ p1.pid = p0.pid ∧ p1.lastRestartedTime = p0.lastRestartedTime)) ∧
    (¬(p1.pid ≠ 0 ∧ p1.pid = p0.pid ∧ p1.lastRestartedTime = p0.lastRestartedTime) →
      reapProcess p0 e true p1 k = (.ok, false)) := by
  by_cases h1 : p1.pid = 0 ∨ p1.pid ≠ p0.pid
  · have hcond : ¬(p1.pid ≠ 0 ∧ p1.pid = p0.pid ∧ p1.lastRestartedTime = p0.lastRestartedTime) := by
      rcases h1 with h | h
      · rintro ⟨ha, -, -⟩; exact ha h
      · rintro ⟨-, hb, -⟩; exact h hb
    have hred : reapProcess p0 e true p1 k = (.ok, false) := by
      simp [reapProcess, hp, he, h1]
    refine ⟨?_, fun _ => hred⟩
    rw [hred]
    simp [hcond]
  · by_cases h2 : p1.lastRestartedTime = p0.lastRestartedTime
    · have hcond : p1.pid ≠ 0 ∧ p1.pid = p0.pid ∧ p1.lastRestartedTime = p0.lastRestartedTime := by
        push_neg at h1
        exact ⟨h1.1, h1.2, h2⟩
      have hpidne : p1.pid ≠ 0 := hcond.1
      obtain ⟨hsent, hnopanic⟩ := kill_sends_of_pid_ne p1 k hpidne
      have hred : reapProcess p0 e true p1 k =
          (.killRet (p1.kill k).1.err, (p1.kill k).1.sentKill) := by
        simp [reapProcess, hp, he, h1, h2, hnopanic]
      constructor
      · rw [hred]
        exact ⟨fun _ => hcond, fun _ => hsent⟩
      · intro habs
        exact absurd hcond habs
    · have hcond : ¬(p1.pid ≠ 0 ∧ p1.pid = p0.pid ∧ p1.lastRestartedTime = p0.lastRestartedTime) := by
        rintro ⟨-, -, hc⟩; exact h2 hc
      have hred : reapProcess p0 e true p1 k = (.ok, false) := by
        simp [reapProcess, hp, he, h1, h2]
      refine ⟨?_, fun _ => hred⟩
      rw [hred]
      simp [hcond]

/-- Witness for C1: clean reap — the worker exited during the timeout
(pid re-reads as 0), so the reap returns success without a kill. -/
theorem reap_force_kill_iff_witness :
    reapProcess ⟨"n", "/bin/sn", "/store", ["storagenode"], some ⟨some 5⟩, 3⟩ none true
      ⟨"n", "/bin/sn", "/store", ["storagenode"], none, 3⟩ none = (.ok, false) :=
  (reap_force_kill_iff ⟨"n", "/bin/sn", "/store", ["storagenode"], some ⟨some 5⟩, 3⟩
    ⟨"n", "/bin/sn", "/store", ["storagenode"], none, 3⟩ none none rfl rfl).2 (by decide)

/-- Claim C3: update-cycle error severity.  In an update-task cycle whose
jittered sleep completed: a failed worker-version query returns success
(nil) to the scheduling loop; a failed check-and-apply returns success;
but when an update was applied, an error from the safe-reap protocol is
returned (supervisor-wrapped, hence non-nil) out of the cycle. -/
theorem update_cycle_error_severity (cur v nv : SemVer) (e re : String)
    (vRes : Except String SemVer)
    (updateRes : SemVer → Except String (SemVer × Bool)) (reapRes : Option String) :
    (cur.isZero = true →
      (updateCycle cur true (.error e) updateRes reapRes).1 = none) ∧
    (cur.isZero = false → updateRes cur = .error e →
      (updateCycle cur true vRes updateRes reapRes).1 = none) ∧
    (cur.isZero = true → vRes = .ok v → updateRes v = .error e →
      (updateCycle cur true vRes updateRes reapRes).1 = none) ∧
    (cur.isZero = false → updateRes cur = .ok (nv, true) →
      (updateCycle cur true vRes updateRes (some re)).1 = some (errSupervisorWrap re)) ∧
    (cur.isZero = true → vRes = .ok v → updateRes v = .ok (nv, true) →
      (updateCycle cur true vRes updateRes (some re)).1 = some (errSupervisorWrap re)) := by
  refine ⟨?_, ?_, ?_, ?_, ?_⟩
  · intro hz
    simp [updateCycle, hz]
  · intro hz hu
    simp [updateCycle, updateStep, hz, hu]
  · intro hz hv hu
    simp [updateCycle, updateStep, hz, hv, hu]
  · intro hz hu
    simp [updateCycle, updateStep, hz, hu]
  · intro hz hv hu
    simp [updateCycle, updateStep, hz, hv, hu]

/-- Witness for C3: with a known current version, an applied update and a
failing reap, the cycle returns the wrapped reap error. -/
theorem update_cycle_error_severity_witness :
    (updateCycle ⟨1, 2, 3, none⟩ true (.ok ⟨1, 2, 3, none⟩)
      (fun _ => .ok (⟨1, 2, 4, none⟩, true)) (some "boom")).1 =
      some (errSupervisorWrap "boom") :=
  (update_cycle_error_severity ⟨1, 2, 3, none⟩ ⟨1, 2, 3, none⟩ ⟨1, 2, 4, none⟩ "x" "boom"
    (.ok ⟨1, 2, 3, none⟩) (fun _ => .ok (⟨1, 2, 4, none⟩, true)) (some "boom")).2.2.2.1
    (by decide) rfl

/-- A check-and-apply whose current version is known and not below the
target is a no-op: current version returned unchanged, `updated = false`,
nothing fetched, backed up or installed. -/
lemma checkAndApply_noop (cur target : SemVer) (fetchRes : Except String Unit)
    (vv : Except String SemVer)
    (h0 : cur.isZero = false) (hlt : SemVer.lt cur target = false) :
    checkAndApply cur (.ok target) fetchRes vv =
      (.ok (cur, false), ⟨false, false, false⟩) := by
  simp [checkAndApply, h0, hlt]

/-- Claim C4: no downgrade — whenever the current version is not the
zero value and is not strictly below the target reported by the version
source, `checkAndApply` returns `updated = false` with the current
version unchanged and fetches no binary payload. -/
theorem no_downgrade (cur target : SemVer) (fetchRes : Except String Unit)
    (vv : Except String SemVer)
    (h0 : cur.isZero = false) (hlt : SemVer.lt cur target = false) :
    checkAndApply cur (.ok target) fetchRes vv =
      (.ok (cur, false), ⟨false, false, false⟩) :=
  checkAndApply_noop cur target fetchRes vv h0 hlt

/-- Witness for C4: current 1.2.3 against target 1.2.0 yields
`updated = false`, version unchanged, no fetch. -/
theorem no_downgrade_witness :
    checkAndApply ⟨1, 2, 3, none⟩ (.ok ⟨1, 2, 0, none⟩) (.ok ()) (.ok ⟨1, 2, 0, none⟩) =
      (.ok (⟨1, 2, 3, none⟩, false), ⟨false, false, false⟩) :=
  no_downgrade ⟨1, 2, 3, none⟩ ⟨1, 2, 0, none⟩ (.ok ()) (.ok ⟨1, 2, 0, none⟩)
    (by decide) (by decide)

/-- Claim C8: jitter bound — every pre-check sleep duration the update
task actually samples lies in the half-open interval
`[0, CheckMaxSleep)` (when `CheckMaxSleep ≤ 0` the Go source panics in
`rand.Int63n` and no duration is sampled at all). -/
theorem jitter_bound (cfg : Config) (draw : Nat) (d : Int)
    (h : sampleJitter cfg draw = some d) :
    0 ≤ d ∧ d < cfg.checkMaxSleep := by
  unfold sampleJitter int63n at h
  by_cases hn : cfg.checkMaxSleep ≤ 0
  · rw [if_pos hn] at h
    exact absurd h (by simp)
  · rw [if_neg hn] at h
    have hd : (draw : Int) % cfg.checkMaxSleep = d := Option.some.inj h
    subst hd
    exact ⟨Int.emod_nonneg _ (by omega), Int.emod_lt_of_pos _ (by omega)⟩

/-- Witness for C8 at the default configuration (300s maximum sleep, in
nanoseconds). -/
theorem jitter_bound_witness :
    (0 : Int) ≤ 12345 ∧
      (12345 : Int) <
        (Config.mk 900000000000 15000000000 300000000000 false false).checkMaxSleep :=
  jitter_bound (Config.mk 900000000000 15000000000 300000000000 false false) 12345 12345
    (by decide)

/-- The scan loop fails with the fixed error when no line carries the
`"Version: "` marker. -/
lemma parseVersionLines_no_marker (ls : List String)
    (h : ∀ l ∈ ls, startsWithChars versionMarker l.data = false) :
    parseVersionLines ls = .error "unable to determine binary version" := by
  induction ls with
  | nil => rfl
  | cons a t ih =>
    have ha := h a (by simp)
    rw [parseVersionLines, ha]
    simp only [Bool.false_eq_true, if_false]
    exact ih (fun l hl => h l (by simp [hl]))

/-- Claim C6: version parsing — the combined output is scanned line by
line for the first line beginning with the literal `"Version: "` and the
remainder of that line is parsed as a semantic version; the input
`"Version: 1.2.3\n"` parses to (1,2,3), and any input none of whose
lines begins with the marker fails with the fixed error. -/
theorem version_parsing (out : String)
    (h : ∀ l ∈ scanLines out, startsWithChars versionMarker l.data = false) :
    parseVersion "Version: 1.2.3\n" = .ok ⟨1, 2, 3, none⟩ ∧
    parseVersion out = .error "unable to determine binary version" :=
  ⟨by decide, parseVersionLines_no_marker (scanLines out) h⟩

/-- Witness for C6: output with no marker line. -/
theorem version_parsing_witness :
    parseVersion "Version: 1.2.3\n" = .ok ⟨1, 2, 3, none⟩ ∧
    parseVersion "storagenode\nno marker here\n" =
      .error "unable to determine binary version" :=
  version_parsing "storagenode\nno marker here\n" (by decide)

/-- Claim C7: startup bootstrap.  With the installed binary absent and a
backup present (copy and version read succeeding): the backup is copied,
its reported version is adopted as the initial best-known version, and
the mandatory update-before-first-run is not forced (with the disable
flag set, no update check runs at all); moreover, when the adopted
version is known and not below the reported target, the pre-run check
fetches no payload.  With neither binary present, the update before
first run happens regardless of the disable flag. -/
theorem startup_bootstrap (flag : Bool) (v target : SemVer)
    (fetchRes : Except String Unit) (vv qRes rep : Except String SemVer)
    (hz : v.isZero = false) (hlt : SemVer.lt v target = false) :
    ((execSupervisorBootstrap false true flag none (.ok v) qRes fetchRes vv).copiedBackup
      = true) ∧
    ((execSupervisorBootstrap false true flag none (.ok v) qRes fetchRes vv).curVersion
      = v) ∧
    ((execSupervisorBootstrap false true true none (.ok v) qRes fetchRes vv).updateRan
      = false) ∧
    ((execSupervisorBootstrap false true flag none (.ok v) (.ok target) fetchRes
        vv).updateActions.fetched = false) ∧
    ((execSupervisorBootstrap false false flag none rep qRes fetchRes vv).updateRan
      = true) := by
  have hnoop := checkAndApply_noop v target fetchRes vv hz hlt
  refine ⟨?_, ?_, ?_, ?_, ?_⟩
  · cases flag
    · simp only [execSupervisorBootstrap, firstRunUpdate, if_false]
      rcases hr : (checkAndApply v qRes fetchRes vv).1 with e | w <;> simp [hr]
    · simp [execSupervisorBootstrap, firstRunUpdate]
  · cases flag
    · simp only [execSupervisorBootstrap, firstRunUpdate, if_false]
      rcases hr : (checkAndApply v qRes fetchRes vv).1 with e | w <;> simp [hr]
    · simp [execSupervisorBootstrap, firstRunUpdate]
  · simp [execSupervisorBootstrap, firstRunUpdate]
  · cases flag
    · simp [execSupervisorBootstrap, firstRunUpdate, hnoop]
    · simp [execSupervisorBootstrap, firstRunUpdate]
  · rcases hr : (checkAndApply SemVer.zero qRes fetchRes vv).1 with e | w <;>
      simp [execSupervisorBootstrap, firstRunUpdate, hr]

/-- Witness for C7: backup reporting 1.0.0, target 1.0.0, default flag —
backup restored, version adopted, nothing fetched; and the no-binary
case forces the first-run update. -/
theorem startup_bootstrap_witness :
    ((execSupervisorBootstrap false true false none (.ok ⟨1, 0, 0, none⟩)
        (.ok ⟨1, 0, 0, none⟩) (.ok ()) (.ok ⟨1, 0, 0, none⟩)).copiedBackup = true) ∧
    ((execSupervisorBootstrap false true false none (.ok ⟨1, 0, 0, none⟩)
        (.ok ⟨1, 0, 0, none⟩) (.ok ()) (.ok ⟨1, 0, 0, none⟩)).curVersion = ⟨1, 0, 0, none⟩) ∧
    ((execSupervisorBootstrap false true true none (.ok ⟨1, 0, 0, none⟩)
        (.ok ⟨1, 0, 0, none⟩) (.ok ()) (.ok ⟨1, 0, 0, none⟩)).updateRan = false) ∧
    ((execSupervisorBootstrap false true false none (.ok ⟨1, 0, 0, none⟩)
        (.ok ⟨1, 0, 0, none⟩) (.ok ()) (.ok ⟨1, 0, 0, none⟩)).updateActions.fetched = false) ∧
    ((execSupervisorBootstrap false false false none (.ok ⟨1, 0, 0, none⟩)
        (.ok ⟨1, 0, 0, none⟩) (.ok ()) (.ok ⟨1, 0, 0, none⟩)).updateRan = true) :=
  startup_bootstrap false ⟨1, 0, 0, none⟩ ⟨1, 0, 0, none⟩ (.ok ())
    (.ok ⟨1, 0, 0, none⟩) (.ok ⟨1, 0, 0, none⟩) (.ok ⟨1, 0, 0, none⟩)
    (by decide) (by decide)

/-- Claim C9 counterexample: the claim that every access to the
WorkerHandle's mutable fields happens while holding the internal lock is
false on the code — `pid`, `start` and `wait` touch the `cmd` handle
with the mutex never held. -/
theorem guarded_access_counterexample :
    mutexGuarded false pidTrace = false ∧
    mutexGuarded false startTrace = false ∧
    mutexGuarded false waitTrace = false := by decide

/-- Claim C9 (amended): only the last-start timestamp is protected by
the mutex — every timestamp access in every `Process` method happens
under the lock (`setLastRestarted` / `lastRestartedTime` and the
timestamp write inside `start`), while `pid` reads the pid-bearing `cmd`
handle, and `start`/`wait` read and write it, without holding the
lock. -/
theorem timestamp_only_guarded :
    (tsGuarded false pidTrace = true ∧
     tsGuarded false startTrace = true ∧
     tsGuarded false setLastRestartedTrace = true ∧
     tsGuarded false lastRestartedTimeTrace = true ∧
     tsGuarded false waitTrace = true ∧
     tsGuarded false exitTrace = true ∧
     tsGuarded false killTrace = true) ∧
    (mutexGuarded false setLastRestartedTrace = true ∧
     mutexGuarded false lastRestartedTimeTrace = true) ∧
    (mutexGuarded false pidTrace = false ∧
     mutexGuarded false startTrace = false ∧
     mutexGuarded false waitTrace = false) := by decide

end StorjSupervisor
